import Mathlib

/-!
Verification of the credential-pool and request-dispatch core of the
Antigravity proxy (`backend/app/core` and `backend/app/api`).

The Python source is shallowly embedded: pure fragments become Lean
functions, stateful fragments become explicit state passing, upstream
network calls become oracle parameters (the response the call would have
produced, `none` for a transport error / raised exception).  Python
floats are modelled as rationals and Unix timestamps as rationals
(integers after `int(...)` truncation).  Python string `upper()` is
modelled on its ASCII fragment, which is the fragment exercised by
JSON-schema `type` values.
-/

namespace Antigravity

/-! ## String helpers (models of Python `str.upper`, `str.lower`, `in`) -/

/-- ASCII model of Python `str.upper` on a single character. -/
def pyUpperChar (c : Char) : Char :=
  if 97 ≤ c.toNat ∧ c.toNat ≤ 122 then Char.ofNat (c.toNat - 32) else c

/-- ASCII model of Python `str.upper`. -/
def pyUpper (s : String) : String :=
  String.mk (s.data.map pyUpperChar)

/-- ASCII model of Python `str.lower` on a single character. -/
def pyLowerChar (c : Char) : Char :=
  if 65 ≤ c.toNat ∧ c.toNat ≤ 90 then Char.ofNat (c.toNat + 32) else c

/-- ASCII model of Python `str.lower`. -/
def pyLower (s : String) : String :=
  String.mk (s.data.map pyLowerChar)

/-- Leading-match test on character lists. -/
def charsLead : List Char → List Char → Bool
  | [], _ => true
  | _ :: _, [] => false
  | a :: as, b :: bs => a = b && charsLead as bs

/-- Contiguous-substring test on character lists: model of Python `needle in hay`. -/
def charsSub (needle : List Char) : List Char → Bool
  | [] => needle.isEmpty
  | b :: bs => charsLead needle (b :: bs) || charsSub needle bs

/-- Model of Python `needle in hay` for strings. -/
def pyInStr (needle hay : String) : Bool :=
  charsSub needle.data hay.data

/-- Python truthiness of an optional string (`None` and `""` are falsy). -/
def truthyStrOpt : Option String → Bool
  | none => false
  | some s => s ≠ ""

/-- Multiplication on ℚ in kernel-reducible form (proved equal to `*`
in `ratMul_eq`); used where the source multiplies floats. -/
def ratMul (a b : ℚ) : ℚ := mkRat (a.num * b.num) (a.den * b.den)

/-- Subtraction on ℚ in kernel-reducible form (proved equal to `-` in
`ratSub_eq`); used where the source subtracts timestamps. -/
def ratSub (a b : ℚ) : ℚ := mkRat (a.num * b.den - b.num * a.den) (a.den * b.den)

/-! ## JSON model

Python dictionaries are modelled as insertion-ordered association lists
(`List (String × Json)`); the mutating cleaners of the source become
functions producing the post-mutation value. -/

inductive Json where
  | null
  | bool (b : Bool)
  | num (n : Int)
  | str (s : String)
  | arr (elems : List Json)
  | obj (fields : List (String × Json))

/-- The Gemini JSON-schema keyword allow-list shared by
`openai_mapper._clean_json_schema` and `claude_mapper._clean_schema`. -/
def allowedKey (k : String) : Bool :=
  k == "type" || k == "description" || k == "properties" || k == "required" ||
  k == "items" || k == "enum" || k == "format" || k == "nullable"

/-! ### `openai_mapper._clean_json_schema`

The source mutates a dict in place: it deletes keys outside the
allow-list, uppercases a string-valued `type`, then recurses into the
dict-valued entries of `properties` and into a dict-valued `items`.
`cleanJSFields` produces the resulting field list. -/

mutual

/-- Value transformation `_clean_json_schema` applies at a kept key:
uppercase a string-valued `type`, recurse into a dict-valued `items`,
recurse into the dict values of `properties`; all other kept values are
untouched. -/
def cleanJSValueAt (k : String) (v : Json) : Json :=
  if k = "type" then (match v with | .str s => .str (pyUpper s) | w => w)
  else if k = "properties" then (match v with | .obj props => .obj (cleanJSProps props) | w => w)
  else if k = "items" then (match v with | .obj fs => .obj (cleanJSFields fs) | w => w)
  else v

/-- Recursion of `_clean_json_schema` into the values of `properties`
(only dict values are cleaned). -/
def cleanJSProps : List (String × Json) → List (String × Json)
  | [] => []
  | (k, .obj fs) :: rest => (k, .obj (cleanJSFields fs)) :: cleanJSProps rest
  | (k, v) :: rest => (k, v) :: cleanJSProps rest

/-- Model of `_clean_json_schema` on the field list of a schema dict. -/
def cleanJSFields : List (String × Json) → List (String × Json)
  | [] => []
  | (k, v) :: rest =>
    if allowedKey k then (k, cleanJSValueAt k v) :: cleanJSFields rest
    else cleanJSFields rest

end

/-! ### `claude_mapper._clean_schema`

The Claude-side cleaner deep-copies, then recursively walks every dict
and list: dicts lose keys outside the allow-list and have a
string-valued `type` uppercased before the walk descends into every
remaining value. -/

mutual

/-- Model of the inner `clean` of `_clean_schema` on a JSON value. -/
def cleanCS : Json → Json
  | .obj fields => .obj (cleanCSFields fields)
  | .arr elems => .arr (cleanCSList elems)
  | v => v

/-- Field-list walk of `_clean_schema`: drop disallowed keys, uppercase
a string `type`, recurse into the value.  The source uppercases first
and then walks into every value; since the walk is the identity on
strings, the kept value is the (possibly uppercased) string for string
values and the recursive cleaning otherwise. -/
def cleanCSFields : List (String × Json) → List (String × Json)
  | [] => []
  | (k, v) :: rest =>
    if allowedKey k then
      (k, match v with
          | .str s => if k = "type" then .str (pyUpper s) else .str s
          | w => cleanCS w) :: cleanCSFields rest
    else cleanCSFields rest

/-- List walk of `_clean_schema`. -/
def cleanCSList : List Json → List Json
  | [] => []
  | v :: rest => cleanCS v :: cleanCSList rest

end

/-! ## OpenAI request mapping: generation config
(`openai_mapper.transform_openai_to_gemini`, step 3, lines 199-213). -/

/-- Python union `str | List[str]` for the `stop` field. -/
inductive StopVal where
  | strVal (s : String)
  | listVal (l : List String)
deriving DecidableEq

/-- The fields of `OpenAIRequest` consumed by the generation-config step
(`max_tokens`, `temperature`, `top_p`, `stop`, `response_format.type`). -/
structure OpenAIReqCfg where
  maxTokens : Option Int
  temperature : Option ℚ
  topP : Option ℚ
  stop : Option StopVal
  responseFormatType : Option String
deriving DecidableEq

structure GenConfig where
  maxOutputTokens : Int
  temperature : ℚ
  topP : ℚ
  stopSequences : Option (List String)
  responseMimeType : Option String
deriving DecidableEq

/-- Python `x or d` on an optional int: `None` and `0` are falsy. -/
def pyOrInt (x : Option Int) (d : Int) : Int :=
  match x with
  | none => d
  | some v => if v = 0 then d else v

/-- Python `x or d` on an optional float: `None` and `0.0` are falsy. -/
def pyOrRat (x : Option ℚ) (d : ℚ) : ℚ :=
  match x with
  | none => d
  | some v => if v = 0 then d else v

/-- Model of the `gen_config` built by `transform_openai_to_gemini`:
`request.max_tokens or 64000`, `request.temperature or 1.0`,
`request.top_p or 1.0`, `stopSequences` under `if request.stop:`
truthiness, `responseMimeType` when `response_format.type` is
`json_object`. -/
def buildGenConfig (r : OpenAIReqCfg) : GenConfig :=
  { maxOutputTokens := pyOrInt r.maxTokens 64000,
    temperature := pyOrRat r.temperature 1,
    topP := pyOrRat r.topP 1,
    stopSequences :=
      match r.stop with
      | some (.strVal s) => if s = "" then none else some [s]
      | some (.listVal l) => if l = [] then none else some l
      | none => none,
    responseMimeType :=
      match r.responseFormatType with
      | some t => if t = "json_object" then some "application/json" else none
      | none => none }

/-- Claim-side generation config for C6, transcribed from the claim:
null-coalescing `??` defaults (a supplied `0` is kept), `stopSequences`
whenever `stop` is given. -/
def claimGenConfigC6 (r : OpenAIReqCfg) : GenConfig :=
  { maxOutputTokens := r.maxTokens.getD 64000,
    temperature := r.temperature.getD 1,
    topP := r.topP.getD 1,
    stopSequences :=
      match r.stop with
      | some (.strVal s) => some [s]
      | some (.listVal l) => some l
      | none => none,
    responseMimeType :=
      match r.responseFormatType with
      | some t => if t = "json_object" then some "application/json" else none
      | none => none }

/-- Amended-claim generation config for C6: a supplied value is used only
when present and nonzero (Python `or` treats `0`/`0.0` as absent), and
`stopSequences` is emitted only for a non-empty `stop`. -/
def amendedGenConfigC6 (r : OpenAIReqCfg) : GenConfig :=
  { maxOutputTokens :=
      match r.maxTokens with
      | some v => if v ≠ 0 then v else 64000
      | none => 64000,
    temperature :=
      match r.temperature with
      | some v => if v ≠ 0 then v else 1
      | none => 1,
    topP :=
      match r.topP with
      | some v => if v ≠ 0 then v else 1
      | none => 1,
    stopSequences :=
      match r.stop with
      | some (.strVal s) => if s ≠ "" then some [s] else none
      | some (.listVal l) => if l ≠ [] then some l else none
      | none => none,
    responseMimeType :=
      match r.responseFormatType with
      | some t => if t = "json_object" then some "application/json" else none
      | none => none }

/-! ## Gemini → OpenAI response mapping
(`response_mapper.transform_gemini_to_openai`). -/

/-- One entry of `candidates[0].content.parts`: the mapper inspects the
`text` key first, then `functionCall`; anything else is skipped. -/
inductive GemPart where
  | text (s : String)
  | functionCall (name : String) (argsJson : String)
  | other
deriving DecidableEq

structure GemCandidate where
  parts : List GemPart
  finishReason : Option String
deriving DecidableEq

structure GemResponse where
  candidates : List GemCandidate
deriving DecidableEq

def isFCPart : GemPart → Bool
  | .functionCall _ _ => true
  | _ => false

/-- The caller-visible fragment of the OpenAI choice the mapper builds:
joined text content (absent when no text part), the extracted function
call names, and the finish reason. -/
structure OpenAIChoiceOut where
  content : Option String
  toolCallNames : List String
  finishReason : String
deriving DecidableEq

/-- Model of `transform_gemini_to_openai`: walk `candidates[0]`,
collect text parts and function calls, set `finish_reason` to
`tool_calls` when function calls exist, then overwrite it from the
upstream `finishReason` (`STOP` → `stop`, `MAX_TOKENS` → `length`). -/
def transform_gemini_to_openai (resp : GemResponse) : OpenAIChoiceOut :=
  match resp.candidates with
  | [] => { content := none, toolCallNames := [], finishReason := "stop" }
  | c :: _ =>
    let texts : List String :=
      c.parts.filterMap (fun p => match p with | .text s => some s | _ => none)
    let fcs : List String :=
      c.parts.filterMap (fun p => match p with | .functionCall n _ => some n | _ => none)
    let fr1 := if fcs ≠ [] then "tool_calls" else "stop"
    let gf := c.finishReason.getD ""
    let fr2 := if gf = "STOP" then "stop" else if gf = "MAX_TOKENS" then "length" else fr1
    { content := if texts ≠ [] then some (String.join texts) else none,
      toolCallNames := fcs,
      finishReason := fr2 }

/-- Claim-side finish reason for C5, transcribed from the claim:
`length` on `MAX_TOKENS`, else `tool_calls` whenever a function call
exists, else `stop`. -/
def claimFinishC5 (resp : GemResponse) : String :=
  match resp.candidates with
  | [] => "stop"
  | c :: _ =>
    if c.finishReason.getD "" = "MAX_TOKENS" then "length"
    else if c.parts.any isFCPart then "tool_calls"
    else "stop"

/-- Amended-claim finish reason for C5: an upstream `STOP` wins over the
presence of function calls; `tool_calls` only when function calls exist
and the upstream reason is neither `STOP` nor `MAX_TOKENS`. -/
def amendedFinishC5 (resp : GemResponse) : String :=
  match resp.candidates with
  | [] => "stop"
  | c :: _ =>
    if c.finishReason.getD "" = "STOP" then "stop"
    else if c.finishReason.getD "" = "MAX_TOKENS" then "length"
    else if c.parts.any isFCPart then "tool_calls"
    else "stop"

/-! ## OAuth client (`oauth.refresh_access_token`, `oauth.fetch_account_info`)

Upstream HTTP outcomes are oracle values: `none` is a transport error,
`some (status, none)` a response whose JSON body could not be parsed,
`some (status, some d)` a parsed response. -/

/-- Parsed JSON body of the token endpoint.  `refreshTokenKey` is
`none` when the `refresh_token` key is absent, `some v` when present
with value `v` (possibly JSON null). -/
structure TokenRespData where
  accessToken : String
  expiresIn : Int
  refreshTokenKey : Option (Option String)
deriving DecidableEq

/-- The `TokenResponse` pydantic model (fields used downstream). -/
structure TokenRespOut where
  accessToken : String
  expiresIn : Int
  refreshTokenVal : Option String
deriving DecidableEq

/-- Model of `oauth.refresh_access_token`: on a 200 with parsable body,
re-insert the caller\'s refresh token when the key is absent; any other
outcome raises (modelled `none`): non-200 raises `Exception("Token
refresh failed: ...")`, transport and JSON errors propagate. -/
def refresh_access_token (oldRefresh : String)
    (resp : Option (Nat × Option TokenRespData)) : Option TokenRespOut :=
  match resp with
  | some (200, some d) =>
    some { accessToken := d.accessToken, expiresIn := d.expiresIn,
           refreshTokenVal :=
             match d.refreshTokenKey with
             | none => some oldRefresh
             | some v => v }
  | _ => none

/-- Parsed JSON body of `loadCodeAssist`: the companion project and the
`id` fields of `paidTier` / `currentTier` (absent or empty collapse to
falsy, as under Python truthiness). -/
structure InfoData where
  cloudaicompanionProject : Option String
  paidTierId : Option String
  currentTierId : Option String
deriving DecidableEq

def fallbackProjectId : String := "bamboo-precept-lgxtn"

/-- Model of `oauth.fetch_account_info`: a parsed 200 yields the
project id and tier (paid tier preferred); every other outcome —
non-200 status, unparsable body, transport error (all swallowed by the
bare `except`) — falls through to the fallback pair.  The function
never raises. -/
def fetch_account_info (resp : Option (Nat × Option InfoData)) :
    Option String × Option String :=
  match resp with
  | some (200, some d) =>
    (d.cloudaicompanionProject,
      if truthyStrOpt d.paidTierId then d.paidTierId
      else if truthyStrOpt d.currentTierId then d.currentTierId
      else none)
  | _ => (some fallbackProjectId, none)

/-- Claim-side metadata fetch for C7, transcribed from the claim: fail
(with `AuthFailure`, modelled as the error branch) on every non-2xx
response, propagate transport errors unchanged, parse on 2xx. -/
def claimFetchC7 (resp : Option (Nat × Option InfoData)) :
    Except Unit (Option String × Option String) :=
  match resp with
  | none => .error ()
  | some (status, d) =>
    if 200 ≤ status ∧ status < 300 then
      .ok (match d with
           | some dd =>
             (dd.cloudaicompanionProject,
               if truthyStrOpt dd.paidTierId then dd.paidTierId
               else if truthyStrOpt dd.currentTierId then dd.currentTierId
               else none)
           | none => (none, none))
    else .error ()

/-! ## TokenManager (`token_manager.py`)

`ProxyToken` mirrors the dataclass; the manager state `TMState` holds
the pool dict (insertion-ordered), the shared round-robin counter and
the sticky pair.  Wall-clock time is a rational parameter (`time.time()`
calls inside one `get_token` invocation are identified); `int(time.time())`
is `Rat.floor`.  Database writes and upstream calls are oracle fields of
`GTOracles`; an overall result of `none` models a raised exception.  On
the raised-exception paths the model discards the in-memory pool
mutation that Python keeps, which no theorem below depends on. -/

structure ProxyToken where
  accountId : String
  email : String
  accessToken : String
  refreshToken : String
  expiresIn : Int
  expiryTimestamp : Int
  projectId : Option String
  subscriptionTier : Option String
  averageQuota : Option ℚ
deriving DecidableEq

structure TMState where
  tokens : List ProxyToken
  currentIndex : Nat
  lastUsed : Option (String × ℚ)
deriving DecidableEq

/-- Placeholder for positions the source can never read (indices are
always reduced modulo a positive length before use). -/
def dummyToken : ProxyToken :=
  { accountId := "", email := "", accessToken := "", refreshToken := "",
    expiresIn := 0, expiryTimestamp := 0, projectId := none,
    subscriptionTier := none, averageQuota := none }

/-- Python test `t.subscription_tier and ('pro' in lower or 'ultra' in lower)`. -/
def isProUltra (t : ProxyToken) : Bool :=
  truthyStrOpt t.subscriptionTier &&
    (pyInStr "pro" (pyLower (t.subscriptionTier.getD "")) ||
     pyInStr "ultra" (pyLower (t.subscriptionTier.getD "")))

/-- Sort key `t.average_quota or 0`. -/
def quotaOf (t : ProxyToken) : ℚ := t.averageQuota.getD 0

/-- Filter `t.average_quota is not None and t.average_quota > 0.05`
(0.05 = 1/20). -/
def hasQuota (t : ProxyToken) : Bool :=
  match t.averageQuota with
  | some q => decide (q > mkRat 1 20)
  | none => false

def tokensWithQuota (ts : List ProxyToken) : List ProxyToken :=
  ts.filter hasQuota

/-- Descending-by-quota order used as the sort relation. -/
def quotaGE (a b : ProxyToken) : Prop := quotaOf b ≤ quotaOf a

instance : DecidableRel quotaGE :=
  fun a b => inferInstanceAs (Decidable (quotaOf b ≤ quotaOf a))

/-- Model of `list.sort(key=lambda t: t.average_quota or 0, reverse=True)`:
the stable descending sort (insertion sort is stable, and a stable sort
is unique, so it coincides with Python\'s Timsort result). -/
def sortQuotaDesc (l : List ProxyToken) : List ProxyToken :=
  List.insertionSort quotaGE l

/-- Dict lookup `self._tokens[a]` combined with `a in self._tokens`. -/
def findById (ts : List ProxyToken) (a : String) : Option ProxyToken :=
  ts.find? (fun t => t.accountId == a)

/-- Step 1 of `get_token`: the 60-second sticky window.  Returns the
entry to reuse, `none` when the window does not apply. -/
def stickyHit (st : TMState) (now : ℚ) (qg : String) (fr : Bool) : Option ProxyToken :=
  if fr = false ∧ qg ≠ "image_gen" then
    match st.lastUsed with
    | some (lastId, lastTime) =>
      if ratSub now lastTime < 60 then findById st.tokens lastId else none
    | none => none
  else none

/-- Shared-counter step `idx = self._current_index % len(l);
self._current_index += 1; l[idx]` under the pool lock. -/
def roundRobin (l : List ProxyToken) (st : TMState) : ProxyToken × TMState :=
  (l.getD (st.currentIndex % l.length) dummyToken,
   { st with currentIndex := st.currentIndex + 1 })

/-- Steps 1-2 of `get_token`: sticky window, then the image-gen or
quota-weighted selection; returns the selected entry and the updated
manager state (`none` when the pool is empty, the `ValueError` path). -/
def selectToken (st : TMState) (now : ℚ) (qg : String) (fr : Bool) :
    Option (ProxyToken × TMState) :=
  if st.tokens.isEmpty then none
  else
    match stickyHit st now qg fr with
    | some t => some (t, st)
    | none =>
      if qg = "image_gen" then
        let proT := st.tokens.filter isProUltra
        if fr then some (roundRobin st.tokens st)
        else if proT ≠ [] then
          let proQ := tokensWithQuota proT
          if proQ ≠ [] then some ((sortQuotaDesc proQ).headD dummyToken, st)
          else some (roundRobin proT st)
        else some (roundRobin st.tokens st)
      else
        let s := tokensWithQuota st.tokens
        let pick : ProxyToken × TMState :=
          if s ≠ [] then
            let sorted := sortQuotaDesc s
            if 3 ≤ sorted.length then
              let top := quotaOf (sorted.headD dummyToken)
              let similar := (sorted.take 3).filter
                (fun t => decide (quotaOf t ≥ ratMul top (mkRat 9 10)))
              if 1 < similar.length then roundRobin similar st
              else (sorted.headD dummyToken, st)
            else (sorted.headD dummyToken, st)
          else roundRobin st.tokens st
        some (pick.1, { pick.2 with lastUsed := some (pick.1.accountId, now) })

/-- Oracles for one `get_token` call: the upstream response of a refresh
(`oauth.refresh_access_token`), whether `_save_token_to_db` succeeds,
the upstream response of `loadCodeAssist` (`oauth.fetch_account_info`),
and whether `_save_metadata_to_db` succeeds. -/
structure GTOracles where
  refreshResp : Option (Nat × Option TokenRespData)
  refreshDbOk : Bool
  infoResp : Option (Nat × Option InfoData)
  metaDbOk : Bool
deriving DecidableEq

/-- Model of `_refresh_token` (with the double-checked expiry test
re-evaluated at the same clock): mutate the entry from the refresh
response and persist; `none` models the raised exception (refresh
failure, or database failure on persist). -/
def refreshTokenStep (ora : GTOracles) (nowI : Int) (t : ProxyToken) : Option ProxyToken :=
  if nowI < t.expiryTimestamp - 300 then some t
  else
    match refresh_access_token t.refreshToken ora.refreshResp with
    | none => none
    | some nt =>
      let t1 := { t with accessToken := nt.accessToken,
                         expiresIn := nt.expiresIn,
                         expiryTimestamp := nowI + nt.expiresIn }
      if ora.refreshDbOk then some t1 else none

/-- Model of `_fetch_metadata`: assign the fetched pair (the fetch
itself never raises), then persist; if the database write raises, the
handler overwrites `project_id` with the fallback and returns normally. -/
def fetchMetadataStep (ora : GTOracles) (t : ProxyToken) : ProxyToken :=
  let pr := fetch_account_info ora.infoResp
  let t1 := { t with projectId := pr.1, subscriptionTier := pr.2 }
  if ora.metaDbOk then t1 else { t1 with projectId := some fallbackProjectId }

/-- In-place mutation of the selected entry seen through the pool dict:
every entry sharing the account id becomes the mutated value. -/
def updateToken (st : TMState) (t : ProxyToken) : TMState :=
  { st with tokens := st.tokens.map (fun u => if u.accountId == t.accountId then t else u) }

/-- Result of a successful `get_token`: the returned triple, the final
in-memory entry, the final manager state, and whether the metadata
fetch ran. -/
structure GTResult where
  token : ProxyToken
  accessToken : String
  projectId : String
  email : String
  state : TMState
  fetchedMetadata : Bool
deriving DecidableEq

/-- Model of `TokenManager.get_token`: select (steps 1-2), refresh if
within 300 s of expiry (step 3), fetch metadata if `project_id` is
falsy (step 4), store the mutated entry back into the pool, and return
`(access_token, project_id or fallback, email)`. -/
def getToken (ora : GTOracles) (st : TMState) (now : ℚ) (qg : String) (fr : Bool) :
    Option GTResult :=
  match selectToken st now qg fr with
  | none => none
  | some (sel, st1) =>
    let nowI : Int := Rat.floor now
    match refreshTokenStep ora nowI sel with
    | none => none
    | some sel1 =>
      let needFetch : Bool := ! truthyStrOpt sel1.projectId
      let sel2 := if needFetch then fetchMetadataStep ora sel1 else sel1
      some { token := sel2,
             accessToken := sel2.accessToken,
             projectId :=
               (match sel2.projectId with
                | some p => if p = "" then fallbackProjectId else p
                | none => fallbackProjectId),
             email := sel2.email,
             state := updateToken st1 sel2,
             fetchedMetadata := needFetch }

/-- Hypothesis of C4 on the refresh oracle: a refresh that reaches the
200-parse path grants more than 300 seconds. -/
abbrev refreshGrantsOK (ora : GTOracles) : Prop :=
  match ora.refreshResp with
  | some (s, some d) => s = 200 → 300 < d.expiresIn
  | _ => True

/-- Hypothesis of C10 on the metadata oracle: the fetch does not reach
the 200-parse path (non-200 status, unparsable body, or transport
error). -/
abbrev infoFetchFails (ora : GTOracles) : Prop :=
  match ora.infoResp with
  | some (200, some _) => False
  | _ => True

/-! ## RetryDispatcher
(`routes_openai.chat_completions` and `routes_claude.messages` share the
same attempt loop; the loop below embeds both). -/

/-- Outcome of one attempt as the `try` body classifies it: success;
`httpx.HTTPStatusError` with status and message (only the upstream call
raises it, so `email` was bound by the preceding `get_token`);
`ValueError` (empty pool; its handler never reads `email`);
`acquireErr`, a non-ValueError exception raised by `get_token` itself
before `email` is bound in this attempt (e.g. a refresh failure
re-raised by `_refresh_token`); or `genericErr`, any other exception
raised after that attempt\'s `get_token` succeeded (transform or
upstream call), so `email` is bound. -/
inductive AttemptOutcome where
  | success
  | httpStatus (status : Nat) (msg : String)
  | valueErr (msg : String)
  | acquireErr (msg : String)
  | genericErr (msg : String)
deriving DecidableEq

/-- What the handler produces: a successful response (tagged with the
attempt index that produced it), a raised `HTTPException`, or an
exception the handler itself raised while logging (the `UnboundLocalError`
from the f-string\'s `email` reference), which FastAPI answers with an
internal server error. -/
inductive DispatchResult where
  | ok (attempt : Nat)
  | httpExc (status : Nat) (detail : String)
  | unhandled
deriving DecidableEq

/-- Membership test `status in [429, 403, 500, 502, 503, 504]`. -/
def rotateStatus (s : Nat) : Bool :=
  s == 429 || s == 403 || s == 500 || s == 502 || s == 503 || s == 504

/-- Errors the dispatch policy classifies as rotate-and-retry: a
rotate-eligible HTTP status, or any non-HTTP non-ValueError exception
(the handlers\' comments retry those whether or not a network keyword
matches), including one raised by `get_token` itself. -/
def rotateEligible : AttemptOutcome → Bool
  | .httpStatus s _ => rotateStatus s
  | .acquireErr _ => true
  | .genericErr _ => true
  | _ => false

/-- Whether the attempt\'s `get_token` call succeeded, binding the local
`email` for the rest of the request. -/
def bindsEmail : AttemptOutcome → Bool
  | .success => true
  | .httpStatus _ _ => true
  | .genericErr _ => true
  | _ => false

def outcomeMsg : AttemptOutcome → String
  | .success => ""
  | .httpStatus _ m => m
  | .valueErr m => m
  | .acquireErr m => m
  | .genericErr m => m

/-- The retry loop `for attempt in range(max_retries)`, from attempt `i`
with `last_error` so far and `emailBound` recording whether any earlier
`get_token` succeeded.  `step i fr` is the outcome of attempt `i`
acquired with `force_rotate = fr`.  The generic handler logs with
`print(f"... ({email}): ...")` before continuing: when `get_token`
itself raised and no earlier attempt bound `email`, that f-string
raises `UnboundLocalError` out of the handler and the request dies
unhandled.  Returns the result along with the trace of
`(attempt index, force_rotate)` pairs passed to `get_token`. -/
def dispatchLoop (step : Nat → Bool → AttemptOutcome) (maxRetries : Nat)
    (i : Nat) (emailBound : Bool) (lastErr : Option String) :
    DispatchResult × List (Nat × Bool) :=
  if h : i < maxRetries then
    let fr := decide (0 < i)
    match step i fr with
    | .success => (.ok i, [(i, fr)])
    | .httpStatus s msg =>
      if rotateStatus s then
        let r := dispatchLoop step maxRetries (i + 1) true (some msg)
        (r.1, (i, fr) :: r.2)
      else (.httpExc s ("Upstream error: " ++ msg), [(i, fr)])
    | .valueErr msg => (.httpExc 503 msg, [(i, fr)])
    | .acquireErr msg =>
      if emailBound then
        let r := dispatchLoop step maxRetries (i + 1) emailBound (some msg)
        (r.1, (i, fr) :: r.2)
      else (.unhandled, [(i, fr)])
    | .genericErr msg =>
      let r := dispatchLoop step maxRetries (i + 1) true (some msg)
      (r.1, (i, fr) :: r.2)
  else
    (.httpExc 429 ("All accounts exhausted: " ++ lastErr.getD "None"), [])
termination_by maxRetries - i
decreasing_by all_goals omega

/-- One chat request through the dispatcher:
`max_retries = max(account_count, 5)`, attempts start at 0 with no
recorded error and `email` not yet bound. -/
def chatDispatch (step : Nat → Bool → AttemptOutcome) (accountCount : Nat) :
    DispatchResult × List (Nat × Bool) :=
  dispatchLoop step (max accountCount 5) 0 false none

/-! ## Concrete instances used by counterexamples and witnesses -/

/-- Oracle for calls that need neither refresh nor metadata. -/
def oraBenign : GTOracles :=
  { refreshResp := none, refreshDbOk := true, infoResp := none, metaDbOk := true }

/-- Oracle whose refresh succeeds with a one-hour grant. -/
def oraRefresh : GTOracles :=
  { refreshResp := some (200, some { accessToken := "at-new", expiresIn := 3600,
                                     refreshTokenKey := none }),
    refreshDbOk := true, infoResp := none, metaDbOk := true }

def tokNoQuota : ProxyToken :=
  { accountId := "a", email := "a@x", accessToken := "at-a", refreshToken := "rt-a",
    expiresIn := 3600, expiryTimestamp := 100000, projectId := some "pa",
    subscriptionTier := none, averageQuota := none }

def tokHalfQuota : ProxyToken :=
  { accountId := "b", email := "b@x", accessToken := "at-b", refreshToken := "rt-b",
    expiresIn := 3600, expiryTimestamp := 100000, projectId := some "pb",
    subscriptionTier := none, averageQuota := some (mkRat 1 2) }

/-- Pool for the C1 counterexample: the sticky pair records entry `a`
selected at time 0. -/
def stC1 : TMState :=
  { tokens := [tokNoQuota, tokHalfQuota], currentIndex := 0,
    lastUsed := some ("a", 0) }

def tokQuotaA : ProxyToken :=
  { accountId := "a", email := "a@x", accessToken := "at-a", refreshToken := "rt-a",
    expiresIn := 3600, expiryTimestamp := 100000, projectId := some "pa",
    subscriptionTier := none, averageQuota := some (mkRat 1 2) }

def tokQuotaB : ProxyToken :=
  { accountId := "b", email := "b@x", accessToken := "at-b", refreshToken := "rt-b",
    expiresIn := 3600, expiryTimestamp := 100000, projectId := some "pb",
    subscriptionTier := none, averageQuota := some (mkRat 12 25) }

/-- Pool for the C2 counterexample: two entries with scores 0.5 and
0.48 (inside the 0.9 tie band), shared counter 0, no sticky pair. -/
def stC2 : TMState :=
  { tokens := [tokQuotaA, tokQuotaB], currentIndex := 0, lastUsed := none }

/-- Pool for the C4 witness: a single entry 100 s from expiry. -/
def stC4 : TMState :=
  { tokens := [{ tokNoQuota with expiryTimestamp := 1100 }], currentIndex := 0,
    lastUsed := none }

def gtDefault : GTResult :=
  { token := dummyToken, accessToken := "", projectId := "", email := "",
    state := { tokens := [], currentIndex := 0, lastUsed := none },
    fetchedMetadata := false }

/-- C4 witness call: `get_token` on `stC4` at time 1000 triggers the
refresh (1000 ≥ 1100 − 300). -/
def rC4 : GTResult :=
  (getToken oraRefresh stC4 1000 "gemini" false).getD gtDefault

/-- C10: entry whose previous metadata fetch failed (fallback project). -/
def tokFellBack : ProxyToken :=
  { tokNoQuota with projectId := some fallbackProjectId }

def stC10 : TMState :=
  { tokens := [tokFellBack], currentIndex := 0, lastUsed := none }

def rC10 : GTResult :=
  (getToken oraBenign stC10 1000 "gemini" false).getD gtDefault

/-- Manager state after the C10 selection (fresh pick of the single
entry at time 1000). -/
def st1C10 : TMState :=
  { tokens := [tokFellBack], currentIndex := 1, lastUsed := some ("a", 1000) }

/-- C7 counterexample: parsed body returned with a 500 status. -/
def infoC7 : InfoData :=
  { cloudaicompanionProject := some "proj-x", paidTierId := none, currentTierId := none }

/-- C5 counterexample: a single candidate carrying one function call and
`finishReason = "STOP"`. -/
def respC5 : GemResponse :=
  { candidates := [{ parts := [.functionCall "get_weather" "\x7b\x7d"],
                     finishReason := some "STOP" }] }

/-- C6 counterexample: an explicitly supplied `temperature` of 0. -/
def reqC6 : OpenAIReqCfg :=
  { maxTokens := some 100, temperature := some 0, topP := some (mkRat 1 2),
    stop := none, responseFormatType := none }

/-- C3 witness: every attempt fails upstream with 429 (so every
attempt\'s `get_token` succeeded). -/
def stepC3 (i : Nat) (fr : Bool) : AttemptOutcome :=
  AttemptOutcome.httpStatus 429 "quota exceeded"

/-- C3 counterexample: every attempt\'s `get_token` itself raises a
rotate-eligible generic exception (a refresh failure), before `email`
is ever bound. -/
def stepC3crash (i : Nat) (fr : Bool) : AttemptOutcome :=
  AttemptOutcome.acquireErr "Token refresh failed: connection error"

/-- Claim-side non-sticky pick for C2, transcribed from the claim: sort
S by score descending, take the top-3 tie band at 0.9 x top score, and
round-robin over the band whenever it holds more than one entry —
whatever the size of S. -/
def claimPickC2 (sorted : List ProxyToken) (counter : Nat) : ProxyToken :=
  let top := quotaOf (sorted.headD dummyToken)
  let band := (sorted.take 3).filter (fun t => decide (quotaOf t ≥ ratMul top (mkRat 9 10)))
  if 1 < band.length then band.getD (counter % band.length) dummyToken
  else sorted.headD dummyToken

/-- Amended-claim non-sticky pick for C2: the tie band only applies when
S holds at least three entries; for smaller S the top entry is always
picked. -/
def amendedPickC2 (sorted : List ProxyToken) (counter : Nat) : ProxyToken :=
  let top := quotaOf (sorted.headD dummyToken)
  let band := (sorted.take 3).filter (fun t => decide (quotaOf t ≥ ratMul top (mkRat 9 10)))
  if 3 ≤ sorted.length ∧ 1 < band.length then band.getD (counter % band.length) dummyToken
  else sorted.headD dummyToken

/-- C8 witness data: a 200 refresh body omitting `refresh_token`. -/
def trC8 : TokenRespData :=
  { accessToken := "at-new", expiresIn := 3600, refreshTokenKey := none }

def rOutC8 : TokenRespOut :=
  (refresh_access_token "old-rt" (some (200, some trC8))).getD
    { accessToken := "", expiresIn := 0, refreshTokenVal := none }

/-- Entry 100 s from expiry at clock 1000, for refresh witnesses. -/
def tokExpiring : ProxyToken := { tokNoQuota with expiryTimestamp := 1100 }

def refC8 : ProxyToken := (refreshTokenStep oraRefresh 1000 tokExpiring).getD dummyToken

/-- Oracle whose metadata fetch hits a 500, for the C7 witness. -/
def oraInfo500 : GTOracles := { oraBenign with infoResp := some (500, some infoC7) }

/-- Pool for the C1 witness: same two entries, no sticky pair yet. -/
def stC1w : TMState :=
  { tokens := [tokNoQuota, tokHalfQuota], currentIndex := 0, lastUsed := none }

/-- First C1 witness call (fresh selection at time 0). -/
def rC1a : GTResult :=
  (getToken oraBenign stC1w 0 "gemini" false).getD gtDefault

/-- Second C1 witness call, 59 s after the first. -/
def rC1b : GTResult :=
  (getToken oraBenign rC1a.state 59 "gemini" false).getD gtDefault

/-! ## Theorems -/

theorem ratMul_eq (a b : ℚ) : ratMul a b = a * b := by
  unfold ratMul
  rw [Rat.mul_def, mkRat, dif_neg (Nat.mul_ne_zero a.den_nz b.den_nz)]

theorem ratSub_eq (a b : ℚ) : ratSub a b = a - b := by
  unfold ratSub
  rw [Rat.sub_def, mkRat, dif_neg (Nat.mul_ne_zero a.den_nz b.den_nz)]

theorem pyUpperChar_idem (c : Char) : pyUpperChar (pyUpperChar c) = pyUpperChar c := by
  by_cases h : 97 ≤ c.toNat ∧ c.toNat ≤ 122
  · have hc : pyUpperChar c = Char.ofNat (c.toNat - 32) := by
      unfold pyUpperChar
      rw [if_pos h]
    obtain ⟨h1, h2⟩ := h
    rw [hc]
    clear hc
    generalize hx : c.toNat = n at h1 h2
    clear hx
    clear c
    interval_cases n <;> decide
  · have hc : pyUpperChar c = c := by
      unfold pyUpperChar
      rw [if_neg h]
    rw [hc, hc]

theorem pyUpper_idem (s : String) : pyUpper (pyUpper s) = pyUpper s := by
  unfold pyUpper
  cases s with
  | mk data =>
    simp only [List.map_map]
    congr 1
    apply List.map_congr_left
    intro c _
    exact pyUpperChar_idem c


mutual

theorem cleanJSValueAt_idem (k : String) (v : Json) :
    cleanJSValueAt k (cleanJSValueAt k v) = cleanJSValueAt k v := by
  by_cases h1 : k = "type"
  · subst h1
    cases v <;> simp [cleanJSValueAt.eq_def, pyUpper_idem]
  · by_cases h2 : k = "properties"
    · subst h2
      cases v with
      | obj props => simp [cleanJSValueAt.eq_def, cleanJSProps_idem props]
      | _ => simp [cleanJSValueAt.eq_def]
    · by_cases h3 : k = "items"
      · subst h3
        cases v with
        | obj fs => simp [cleanJSValueAt.eq_def, cleanJSFields_idem fs]
        | _ => simp [cleanJSValueAt.eq_def]
      · simp [cleanJSValueAt.eq_def, h1, h2, h3]
termination_by sizeOf v

theorem cleanJSProps_idem (l : List (String × Json)) :
    cleanJSProps (cleanJSProps l) = cleanJSProps l := by
  cases l with
  | nil => simp [cleanJSProps.eq_1]
  | cons hd rest =>
    obtain ⟨k, v⟩ := hd
    cases v with
    | obj fs => simp [cleanJSProps.eq_2, cleanJSFields_idem fs, cleanJSProps_idem rest]
    | _ => simp [cleanJSProps.eq_3, cleanJSProps_idem rest]
termination_by sizeOf l

theorem cleanJSFields_idem (l : List (String × Json)) :
    cleanJSFields (cleanJSFields l) = cleanJSFields l := by
  cases l with
  | nil => simp [cleanJSFields.eq_1]
  | cons hd rest =>
    obtain ⟨k, v⟩ := hd
    by_cases ha : allowedKey k
    · simp [cleanJSFields.eq_2, ha, cleanJSValueAt_idem k v, cleanJSFields_idem rest]
    · simp [cleanJSFields.eq_2, ha, cleanJSFields_idem rest]
termination_by sizeOf l

end

mutual

theorem cleanCS_idem (v : Json) : cleanCS (cleanCS v) = cleanCS v := by
  cases v with
  | obj fields => simp [cleanCS.eq_1, cleanCSFields_idem fields]
  | arr elems => simp [cleanCS.eq_2, cleanCSList_idem elems]
  | null => simp [cleanCS.eq_3]
  | bool b => simp [cleanCS.eq_3]
  | num n => simp [cleanCS.eq_3]
  | str s => simp [cleanCS.eq_3]
termination_by sizeOf v

theorem cleanCSFields_idem (l : List (String × Json)) :
    cleanCSFields (cleanCSFields l) = cleanCSFields l := by
  cases l with
  | nil => simp [cleanCSFields.eq_1]
  | cons hd rest =>
    obtain ⟨k, v⟩ := hd
    by_cases ha : allowedKey k
    · cases v with
      | str s =>
        by_cases hk : k = "type"
        · subst hk
          simp [cleanCSFields.eq_2, ha, pyUpper_idem, cleanCSFields_idem rest]
        · simp [cleanCSFields.eq_2, ha, hk, cleanCSFields_idem rest]
      | null => simp [cleanCSFields.eq_3, ha, cleanCS.eq_3, cleanCSFields_idem rest]
      | bool b => simp [cleanCSFields.eq_3, ha, cleanCS.eq_3, cleanCSFields_idem rest]
      | num n => simp [cleanCSFields.eq_3, ha, cleanCS.eq_3, cleanCSFields_idem rest]
      | obj fs =>
        simp [cleanCSFields.eq_3, ha, cleanCS.eq_1, cleanCSFields_idem rest, cleanCSFields_idem fs]
      | arr elems =>
        simp [cleanCSFields.eq_3, ha, cleanCS.eq_2, cleanCSFields_idem rest, cleanCSList_idem elems]
    · cases v <;>
        simp [cleanCSFields.eq_2, cleanCSFields.eq_3, ha, cleanCSFields_idem rest]
termination_by sizeOf l

theorem cleanCSList_idem (l : List Json) :
    cleanCSList (cleanCSList l) = cleanCSList l := by
  cases l with
  | nil => simp [cleanCSList.eq_1]
  | cons v rest => simp [cleanCSList.eq_2, cleanCS_idem v, cleanCSList_idem rest]
termination_by sizeOf l

end


/-- Bridge between the mapper\'s function-call extraction and the
presence of a function-call part. -/
theorem fcPart_some (p : GemPart) :
    ((match p with | GemPart.functionCall n _ => some n | _ => none) ≠ (none : Option String))
      ↔ isFCPart p = true := by
  cases p <;> simp [isFCPart]

/-- C9: both JSON-schema cleaners are idempotent —
`_clean_json_schema` on the field list of a schema dict, and
`_clean_schema` on any JSON value (in particular on a schema dict). -/
theorem c9_schema_cleaner_idempotent :
    (∀ fields : List (String × Json), cleanJSFields (cleanJSFields fields) = cleanJSFields fields)
  ∧ (∀ v : Json, cleanCS (cleanCS v) = cleanCS v) :=
  ⟨cleanJSFields_idem, cleanCS_idem⟩

/-- C5 counterexample: on a response whose first candidate carries a
function call and `finishReason = "STOP"`, the code returns `stop`
while the claim demands `tool_calls`. -/
theorem c5_counterexample :
    (transform_gemini_to_openai respC5).finishReason ≠ claimFinishC5 respC5 := by
  decide

/-- C5 amended: `finish_reason` is `length` on `MAX_TOKENS`, `stop` on
`STOP` (even when function calls exist), `tool_calls` when function
calls exist and the upstream reason is neither, and `stop` otherwise. -/
theorem c5_theorem (resp : GemResponse) :
    (transform_gemini_to_openai resp).finishReason = amendedFinishC5 resp := by
  obtain ⟨cands⟩ := resp
  cases cands with
  | nil => rfl
  | cons c rest =>
    obtain ⟨parts, gfr⟩ := c
    simp only [transform_gemini_to_openai, amendedFinishC5]
    by_cases h1 : gfr.getD "" = "STOP" <;> by_cases h2 : gfr.getD "" = "MAX_TOKENS" <;>
      simp [h1, h2, fcPart_some]

/-- C6 counterexample: a request supplying `temperature = 0` is mapped
to upstream temperature 1.0 (Python `or` treats 0 as absent), while the
claim demands 0 to be forwarded. -/
theorem c6_counterexample : buildGenConfig reqC6 ≠ claimGenConfigC6 reqC6 := by
  decide

/-- C6 amended: `generationConfig` uses a supplied `max_tokens`,
`temperature`, `top_p` only when present and nonzero (falling back to
64000 / 1.0 / 1.0 otherwise, including for a supplied 0), emits
`stopSequences` only for a non-empty `stop`, and sets
`responseMimeType` exactly when `response_format.type = json_object`. -/
theorem c6_theorem (r : OpenAIReqCfg) : buildGenConfig r = amendedGenConfigC6 r := by
  obtain ⟨mt, tp, pp, st, rf⟩ := r
  simp only [buildGenConfig, amendedGenConfigC6, GenConfig.mk.injEq]
  refine ⟨?_, ?_, ?_, ?_, trivial⟩
  · cases mt with
    | none => rfl
    | some v => by_cases h : v = 0 <;> simp [pyOrInt, h]
  · cases tp with
    | none => rfl
    | some v => by_cases h : v = 0 <;> simp [pyOrRat, h]
  · cases pp with
    | none => rfl
    | some v => by_cases h : v = 0 <;> simp [pyOrRat, h]
  · cases st with
    | none => rfl
    | some sv =>
      cases sv with
      | strVal s => by_cases h : s = "" <;> simp [h]
      | listVal l => by_cases h : l = [] <;> simp [h]

/-- C7 counterexample: on a 500 response the code returns the fallback
pair normally, whereas the claim demands an `AuthFailure`. -/
theorem c7_counterexample :
    Except.ok (fetch_account_info (some (500, some infoC7)))
      ≠ claimFetchC7 (some (500, some infoC7)) := by
  simp [fetch_account_info, claimFetchC7]

/-- Off the 200-parse path, `fetch_account_info` yields the fallback
pair. -/
theorem fetch_account_info_fallback (ora : GTOracles) (h : infoFetchFails ora) :
    fetch_account_info ora.infoResp = (some fallbackProjectId, none) := by
  unfold fetch_account_info
  split
  · simp_all [infoFetchFails]
  · rfl

/-- Off the 200-parse path, `_fetch_metadata` installs the fallback
project id. -/
theorem fetchMetadataStep_fallback :
    ∀ (ora : GTOracles) (t : ProxyToken), infoFetchFails ora →
      (fetchMetadataStep ora t).projectId = some fallbackProjectId := by
  intro ora t h
  unfold fetchMetadataStep
  rw [fetch_account_info_fallback ora h]
  cases hdb : ora.metaDbOk <;> simp [hdb]

/-- A database failure during `_fetch_metadata` installs the fallback
project id. -/
theorem fetchMetadataStep_dbfail (ora : GTOracles) (t : ProxyToken)
    (h : ora.metaDbOk = false) :
    (fetchMetadataStep ora t).projectId = some fallbackProjectId := by
  unfold fetchMetadataStep
  simp [h]

/-- Step `_fetch_metadata` does not touch identity or expiry fields. -/
theorem fetchMetadataStep_fields (ora : GTOracles) (t : ProxyToken) :
    (fetchMetadataStep ora t).accountId = t.accountId
  ∧ (fetchMetadataStep ora t).email = t.email
  ∧ (fetchMetadataStep ora t).expiryTimestamp = t.expiryTimestamp := by
  unfold fetchMetadataStep
  cases hdb : ora.metaDbOk <;> simp [hdb]

/-- A successful `refresh_access_token` implies a parsed 200 response,
and the granted lifetime is the response\'s `expires_in`. -/
theorem refresh_access_token_shape (old : String)
    (resp : Option (Nat × Option TokenRespData)) (nt : TokenRespOut)
    (h : refresh_access_token old resp = some nt) :
    ∃ d, resp = some (200, some d) ∧ nt.expiresIn = d.expiresIn := by
  unfold refresh_access_token at h
  split at h
  · next d =>
    simp only [Option.some.injEq] at h
    subst h
    exact ⟨d, rfl, rfl⟩
  · simp at h

/-- Step `_refresh_token` does not touch identity, score, tier or project
fields. -/
theorem refreshTokenStep_fields (ora : GTOracles) (nowI : Int) (t t1 : ProxyToken)
    (h : refreshTokenStep ora nowI t = some t1) :
    t1.accountId = t.accountId ∧ t1.email = t.email
  ∧ t1.projectId = t.projectId ∧ t1.subscriptionTier = t.subscriptionTier
  ∧ t1.averageQuota = t.averageQuota := by
  unfold refreshTokenStep at h
  split at h
  · simp only [Option.some.injEq] at h
    subst h
    exact ⟨rfl, rfl, rfl, rfl, rfl⟩
  · cases hm : refresh_access_token t.refreshToken ora.refreshResp with
    | none => rw [hm] at h; simp at h
    | some nt =>
      rw [hm] at h
      cases hdb : ora.refreshDbOk with
      | false => rw [hdb] at h; simp at h
      | true =>
        rw [hdb] at h
        simp only [if_true, Option.some.injEq] at h
        subst h
        exact ⟨rfl, rfl, rfl, rfl, rfl⟩

/-- After a successful refresh step under C4\'s oracle hypothesis, the
entry is strictly more than 300 s from expiry. -/
theorem refreshTokenStep_expiry (ora : GTOracles) (nowI : Int) (t t1 : ProxyToken)
    (hok : refreshGrantsOK ora) (h : refreshTokenStep ora nowI t = some t1) :
    300 < t1.expiryTimestamp - nowI := by
  unfold refreshTokenStep at h
  split at h
  · next hlt =>
    simp only [Option.some.injEq] at h
    subst h
    omega
  · cases hm : refresh_access_token t.refreshToken ora.refreshResp with
    | none => rw [hm] at h; simp at h
    | some nt =>
      rw [hm] at h
      obtain ⟨d, hresp, hexp⟩ := refresh_access_token_shape t.refreshToken ora.refreshResp nt hm
      cases hdb : ora.refreshDbOk with
      | false => rw [hdb] at h; simp at h
      | true =>
        rw [hdb] at h
        simp only [if_true, Option.some.injEq] at h
        subst h
        have hgt : 300 < d.expiresIn := by
          unfold refreshGrantsOK at hok
          rw [hresp] at hok
          exact hok rfl
        simp only []
        omega

/-- C7 amended: the metadata fetch never raises — `fetch_account_info`
returns the fallback pair `(bamboo-precept-lgxtn, none)` on every
non-200 response and on transport errors, and
`TokenManager._fetch_metadata` substitutes the fallback project id
whenever the fetch does not reach the 200-parse path. -/
theorem c7_theorem :
    (∀ (status : Nat) (d : Option InfoData), status ≠ 200 →
        fetch_account_info (some (status, d)) = (some fallbackProjectId, none))
  ∧ fetch_account_info none = (some fallbackProjectId, none)
  ∧ (∀ (ora : GTOracles) (t : ProxyToken), infoFetchFails ora →
        (fetchMetadataStep ora t).projectId = some fallbackProjectId) := by
  refine ⟨?_, rfl, ?_⟩
  · intro status d hs
    unfold fetch_account_info
    split
    · simp_all
    · rfl
  · exact fetchMetadataStep_fallback

/-- Witness for C7: the amended claim evaluated on the concrete 500
response. -/
theorem c7_witness :
    fetch_account_info (some (500, some infoC7)) = (some fallbackProjectId, none)
  ∧ (fetchMetadataStep oraInfo500 tokNoQuota).projectId = some fallbackProjectId :=
by
  refine ⟨c7_theorem.1 500 (some infoC7) ?_, c7_theorem.2.2 oraInfo500 tokNoQuota ?_⟩
  · decide
  · exact True.intro

/-- C8: when a 200 refresh response omits the `refresh_token` key, the
returned token record carries the caller\'s previous refresh token; and
`_refresh_token` never modifies the entry\'s `refresh_token` field. -/
theorem c8_theorem :
    (∀ (old : String) (d : TokenRespData) (r : TokenRespOut),
        d.refreshTokenKey = none →
        refresh_access_token old (some (200, some d)) = some r →
        r.refreshTokenVal = some old)
  ∧ (∀ (ora : GTOracles) (nowI : Int) (t t1 : ProxyToken),
        refreshTokenStep ora nowI t = some t1 → t1.refreshToken = t.refreshToken) := by
  constructor
  · intro old d r hk hr
    simp only [refresh_access_token, hk, Option.some.injEq] at hr
    subst hr
    rfl
  · intro ora nowI t t1 h
    unfold refreshTokenStep at h
    split at h
    · simp only [Option.some.injEq] at h
      subst h
      rfl
    · cases hm : refresh_access_token t.refreshToken ora.refreshResp with
      | none => rw [hm] at h; exact absurd h (by simp)
      | some nt =>
        rw [hm] at h
        cases hdb : ora.refreshDbOk with
        | false => rw [hdb] at h; simp at h
        | true =>
          rw [hdb] at h
          simp only [if_true, Option.some.injEq] at h
          subst h
          rfl

/-- Witness for C8: the concrete 200 refresh body `trC8` without a
`refresh_token` key, and a concrete refresh of `tokExpiring`. -/
theorem c8_witness :
    rOutC8.refreshTokenVal = some "old-rt"
  ∧ refC8.refreshToken = tokExpiring.refreshToken :=
  ⟨c8_theorem.1 "old-rt" trC8 rOutC8 rfl (by decide),
   c8_theorem.2 oraRefresh 1000 tokExpiring refC8 (by decide)⟩


/-- Trace invariants of the retry loop: at most `m − i` further
attempts, each recorded with its index and `force_rotate = (index > 0)`,
indices within range. -/
theorem dispatchLoop_entries (step : Nat → Bool → AttemptOutcome) (m : Nat) :
    ∀ (f i : Nat) (eb : Bool) (err : Option String), m - i = f →
      (dispatchLoop step m i eb err).2.length ≤ f
    ∧ (∀ p ∈ (dispatchLoop step m i eb err).2,
        p.2 = decide (0 < p.1) ∧ i ≤ p.1 ∧ p.1 < m) := by
  intro f
  induction f with
  | zero =>
    intro i eb err hf
    have hi : ¬ i < m := by omega
    rw [dispatchLoop, dif_neg hi]
    simp
  | succ n ih =>
    intro i eb err hf
    by_cases hi : i < m
    · rw [dispatchLoop, dif_pos hi]
      cases hstep : step i (decide (0 < i)) with
      | success =>
        simp only [hstep]
        constructor
        · simp
        · intro p hp
          simp only [List.mem_singleton] at hp
          subst hp
          exact ⟨rfl, le_refl i, hi⟩
      | httpStatus s msg =>
        simp only [hstep]
        by_cases hrot : rotateStatus s
        · simp only [hrot, if_true]
          obtain ⟨ihl, ihe⟩ := ih (i + 1) true (some msg) (by omega)
          constructor
          · simpa using ihl
          · intro p hp
            simp only [List.mem_cons] at hp
            rcases hp with hp | hp
            · subst hp
              exact ⟨rfl, le_refl i, hi⟩
            · obtain ⟨h1, h2, h3⟩ := ihe p hp
              exact ⟨h1, by omega, h3⟩
        · rw [if_neg hrot]
          constructor
          · exact Nat.succ_le_succ (Nat.zero_le n)
          · intro p hp
            simp only [List.mem_singleton] at hp
            subst hp
            exact ⟨rfl, le_refl i, hi⟩
      | valueErr msg =>
        simp only [hstep]
        constructor
        · simp
        · intro p hp
          simp only [List.mem_singleton] at hp
          subst hp
          exact ⟨rfl, le_refl i, hi⟩
      | acquireErr msg =>
        simp only [hstep]
        cases heb : eb with
        | true =>
          simp only [if_true]
          obtain ⟨ihl, ihe⟩ := ih (i + 1) true (some msg) (by omega)
          constructor
          · simpa using ihl
          · intro p hp
            simp only [List.mem_cons] at hp
            rcases hp with hp | hp
            · subst hp
              exact ⟨rfl, le_refl i, hi⟩
            · obtain ⟨h1, h2, h3⟩ := ihe p hp
              exact ⟨h1, by omega, h3⟩
        | false =>
          rw [if_neg (by simp)]
          constructor
          · exact Nat.succ_le_succ (Nat.zero_le n)
          · intro p hp
            simp only [List.mem_singleton] at hp
            subst hp
            exact ⟨rfl, le_refl i, hi⟩
      | genericErr msg =>
        simp only [hstep]
        obtain ⟨ihl, ihe⟩ := ih (i + 1) true (some msg) (by omega)
        constructor
        · simpa using ihl
        · intro p hp
          simp only [List.mem_cons] at hp
          rcases hp with hp | hp
          · subst hp
            exact ⟨rfl, le_refl i, hi⟩
          · obtain ⟨h1, h2, h3⟩ := ihe p hp
            exact ⟨h1, by omega, h3⟩
    · rw [dispatchLoop, dif_neg hi]
      simp

/-- When every remaining attempt fails with a rotate-eligible error and
`email` is already bound, the loop exhausts and raises 429 with the
last error message appended. -/
theorem dispatchLoop_exhaust (step : Nat → Bool → AttemptOutcome) (m : Nat) :
    ∀ (f i : Nat) (err : Option String), m - i = f →
      (∀ j, i ≤ j → j < m → rotateEligible (step j (decide (0 < j))) = true) →
      (dispatchLoop step m i true err).1 =
        .httpExc 429 ("All accounts exhausted: " ++
          (if i < m then outcomeMsg (step (m - 1) (decide (0 < m - 1)))
           else err.getD "None")) := by
  intro f
  induction f with
  | zero =>
    intro i err hf hall
    have hi : ¬ i < m := by omega
    rw [dispatchLoop, dif_neg hi]
    simp [hi]
  | succ n ih =>
    intro i err hf hall
    by_cases hi : i < m
    · rw [dispatchLoop, dif_pos hi]
      have hel := hall i (le_refl i) hi
      cases hstep : step i (decide (0 < i)) with
      | success =>
        rw [hstep] at hel
        simp [rotateEligible] at hel
      | valueErr msg =>
        rw [hstep] at hel
        simp [rotateEligible] at hel
      | httpStatus s msg =>
        rw [hstep] at hel
        have hrot : rotateStatus s = true := by simpa [rotateEligible] using hel
        simp only [hstep, hrot, if_true]
        have hrec := ih (i + 1) (some msg) (by omega)
          (fun j hj1 hj2 => hall j (by omega) hj2)
        rw [hrec]
        by_cases him : i + 1 < m
        · simp [him, hi]
        · have hieq : i = m - 1 := by omega
          subst hieq
          simp only [him, if_false, if_pos hi, hstep, outcomeMsg, Option.getD_some]
      | acquireErr msg =>
        simp only [hstep, if_true]
        have hrec := ih (i + 1) (some msg) (by omega)
          (fun j hj1 hj2 => hall j (by omega) hj2)
        rw [hrec]
        by_cases him : i + 1 < m
        · simp [him, hi]
        · have hieq : i = m - 1 := by omega
          subst hieq
          simp only [him, if_false, if_pos hi, hstep, outcomeMsg, Option.getD_some]
      | genericErr msg =>
        simp only [hstep]
        have hrec := ih (i + 1) (some msg) (by omega)
          (fun j hj1 hj2 => hall j (by omega) hj2)
        rw [hrec]
        by_cases him : i + 1 < m
        · simp [him, hi]
        · have hieq : i = m - 1 := by omega
          subst hieq
          simp only [him, if_false, if_pos hi, hstep, outcomeMsg, Option.getD_some]
    · rw [dispatchLoop, dif_neg hi]
      simp [hi]

/-- C3 counterexample: every attempt fails with a rotate-eligible error
(`stepC3crash` is the constant refresh-failure outcome, so every
attempt — here the first of `max(1,5) = 5` — is rotate-eligible), yet
the dispatcher dies with the handler\'s own `UnboundLocalError`
(answered as an internal server error), not with the claimed
429 `All accounts exhausted` detail. -/
theorem c3_counterexample :
    rotateEligible (stepC3crash 0 (decide (0 < 0))) = true
  ∧ (chatDispatch stepC3crash 1).1 = DispatchResult.unhandled
  ∧ (chatDispatch stepC3crash 1).1 ≠
      DispatchResult.httpExc 429 ("All accounts exhausted: " ++
        outcomeMsg (stepC3crash (max 1 5 - 1) (decide (0 < max 1 5 - 1)))) := by
  have hstep : chatDispatch stepC3crash 1 = (DispatchResult.unhandled, [(0, false)]) := by
    unfold chatDispatch
    rw [dispatchLoop, dif_pos (by omega : (0 : Nat) < max 1 5)]
    rfl
  refine ⟨rfl, ?_, ?_⟩
  · rw [hstep]
  · rw [hstep]
    simp

/-- C3 amended: the dispatcher performs at most `max(pool_size, 5)`
attempts, acquires with `force_rotate = (attempt > 0)` on every
attempt, and — when every attempt fails with a rotate-eligible error
and the first attempt\'s `get_token` succeeds (so the failure lies in
the upstream call and the local `email` is bound) — raises HTTP 429
whose detail is `All accounts exhausted: ` followed by the last error
message.  When the very first `get_token` itself raises a non-ValueError,
the generic handler\'s log line hits the unbound `email` and the request
fails unhandled instead. -/
theorem c3_theorem (step : Nat → Bool → AttemptOutcome) (n : Nat) :
    ((chatDispatch step n).2.length ≤ max n 5)
  ∧ (∀ p ∈ (chatDispatch step n).2, p.2 = decide (0 < p.1))
  ∧ ((∀ i, i < max n 5 → rotateEligible (step i (decide (0 < i))) = true) →
      bindsEmail (step 0 (decide (0 < 0))) = true →
      (chatDispatch step n).1 =
        .httpExc 429 ("All accounts exhausted: " ++
          outcomeMsg (step (max n 5 - 1) (decide (0 < max n 5 - 1))))) := by
  have hm : 0 < max n 5 := by omega
  have hm1 : 1 < max n 5 := by omega
  obtain ⟨hlen, hent⟩ := dispatchLoop_entries step (max n 5) (max n 5) 0 false none (by omega)
  refine ⟨by simpa using hlen, fun p hp => (hent p hp).1, ?_⟩
  intro hall hbind
  unfold chatDispatch
  rw [dispatchLoop, dif_pos hm]
  have hel := hall 0 hm
  cases hstep : step 0 (decide (0 < 0)) with
  | success =>
    rw [hstep] at hel
    simp [rotateEligible] at hel
  | valueErr msg =>
    rw [hstep] at hel
    simp [rotateEligible] at hel
  | acquireErr msg =>
    rw [hstep] at hbind
    simp [bindsEmail] at hbind
  | httpStatus s msg =>
    rw [hstep] at hel
    have hrot : rotateStatus s = true := by simpa [rotateEligible] using hel
    simp only [hstep, hrot, if_true]
    have hrec := dispatchLoop_exhaust step (max n 5) (max n 5 - 1) 1 (some msg) (by omega)
      (fun j hj1 hj2 => hall j hj2)
    rw [hrec]
    simp [hm1]
  | genericErr msg =>
    simp only [hstep]
    have hrec := dispatchLoop_exhaust step (max n 5) (max n 5 - 1) 1 (some msg) (by omega)
      (fun j hj1 hj2 => hall j hj2)
    rw [hrec]
    simp [hm1]

/-- Witness for C3: two accounts, every upstream call answers 429 (so
every `get_token` succeeded); the dispatcher returns 429 with the last
error message. -/
theorem c3_witness :
    (chatDispatch stepC3 2).1 =
      .httpExc 429 ("All accounts exhausted: " ++
        outcomeMsg (stepC3 (max 2 5 - 1) (decide (0 < max 2 5 - 1)))) :=
  (c3_theorem stepC3 2).2.2 (fun i hi => rfl) rfl

/-- C4: a successful `get_token` returns a token strictly more than
300 s from expiry, under the hypothesis that any refresh performed
grants `expires_in > 300` (a refresh that fails makes the call raise,
so it cannot return at all). -/
theorem c4_theorem (ora : GTOracles) (st : TMState) (now : ℚ) (qg : String) (fr : Bool)
    (r : GTResult) (hok : refreshGrantsOK ora)
    (h : getToken ora st now qg fr = some r) :
    300 < r.token.expiryTimestamp - Rat.floor now := by
  unfold getToken at h
  cases hsel : selectToken st now qg fr with
  | none => rw [hsel] at h; simp at h
  | some p =>
    obtain ⟨sel, st1⟩ := p
    rw [hsel] at h
    dsimp only at h
    cases href : refreshTokenStep ora (Rat.floor now) sel with
    | none => rw [href] at h; simp at h
    | some sel1 =>
      rw [href] at h
      simp only [Option.some.injEq] at h
      subst h
      have hexp := refreshTokenStep_expiry ora (Rat.floor now) sel sel1 hok href
      cases hneed : (! truthyStrOpt sel1.projectId) with
      | true =>
        show 300 < (fetchMetadataStep ora sel1).expiryTimestamp - Rat.floor now
        rw [(fetchMetadataStep_fields ora sel1).2.2]
        exact hexp
      | false =>
        show 300 < sel1.expiryTimestamp - Rat.floor now
        exact hexp

/-- Witness for C4: a pool whose single entry is 100 s from expiry at
time 1000; the refresh grants 3600 s. -/
theorem c4_witness : 300 < rC4.token.expiryTimestamp - Rat.floor (1000 : ℚ) :=
  c4_theorem oraRefresh stC4 1000 "gemini" false rC4 (fun _ => by decide) (by decide)

/-- C10: a failed metadata fetch during an acquire installs the
non-empty fallback project id in the pool entry (whether the fetch
itself missed the 200-parse path or the database write failed); and any
later acquire that selects an entry already carrying the fallback skips
the metadata fetch and returns the fallback project id. -/
theorem c10_theorem :
    (∀ (ora : GTOracles) (t : ProxyToken),
        infoFetchFails ora ∨ ora.metaDbOk = false →
        (fetchMetadataStep ora t).projectId = some fallbackProjectId)
  ∧ (∀ (ora : GTOracles) (st st1 : TMState) (now : ℚ) (qg : String) (fr : Bool)
        (sel : ProxyToken) (r : GTResult),
        selectToken st now qg fr = some (sel, st1) →
        sel.projectId = some fallbackProjectId →
        getToken ora st now qg fr = some r →
        r.fetchedMetadata = false ∧ r.projectId = fallbackProjectId) := by
  constructor
  · intro ora t hfail
    rcases hfail with hfail | hdb
    · exact fetchMetadataStep_fallback ora t hfail
    · exact fetchMetadataStep_dbfail ora t hdb
  · intro ora st st1 now qg fr sel r hsel hproj h
    unfold getToken at h
    rw [hsel] at h
    dsimp only at h
    cases href : refreshTokenStep ora (Rat.floor now) sel with
    | none => rw [href] at h; simp at h
    | some sel1 =>
      rw [href] at h
      simp only [Option.some.injEq] at h
      subst h
      have hpid : sel1.projectId = sel.projectId :=
        (refreshTokenStep_fields ora (Rat.floor now) sel sel1 href).2.2.1
      have htr : truthyStrOpt sel1.projectId = true := by
        rw [hpid, hproj]
        decide
      constructor
      · simp [htr]
      · simp only [htr, Bool.not_true, Bool.false_eq_true, if_false]
        rw [hpid, hproj]
        simp [fallbackProjectId]

/-- Witness for C10: the single pool entry already carries the fallback
project id; the acquire at time 1000 does not fetch metadata and
returns the fallback. -/
theorem c10_witness :
    (fetchMetadataStep oraBenign dummyToken).projectId = some fallbackProjectId
  ∧ rC10.fetchedMetadata = false ∧ rC10.projectId = fallbackProjectId := by
  refine ⟨c10_theorem.1 oraBenign dummyToken (Or.inl True.intro),
          c10_theorem.2 oraBenign stC10 st1C10 1000 "gemini" false tokFellBack rC10
            ?_ ?_ ?_⟩ <;> decide


instance : IsTotal ProxyToken quotaGE :=
  ⟨fun a b => le_total (quotaOf b) (quotaOf a)⟩

instance : IsTrans ProxyToken quotaGE :=
  ⟨fun _ _ _ hab hbc => le_trans hbc hab⟩

/-- The head of the descending sort carries the maximal score. -/
theorem sortQuotaDesc_head_max (l : List ProxyToken) (t : ProxyToken) (ht : t ∈ l) :
    quotaOf t ≤ quotaOf ((sortQuotaDesc l).headD dummyToken) := by
  have hmem : t ∈ sortQuotaDesc l := (List.mem_insertionSort quotaGE).2 ht
  cases hs : sortQuotaDesc l with
  | nil => rw [hs] at hmem; simp at hmem
  | cons a as =>
    have hsorted : List.Sorted quotaGE (a :: as) := by
      rw [← hs]; exact List.sorted_insertionSort quotaGE l
    rw [hs] at hmem
    simp only [List.headD_cons]
    rcases List.mem_cons.1 hmem with hta | hta
    · subst hta; exact le_refl _
    · exact List.rel_of_sorted_cons hsorted t hta

/-- C2 amended: on the non-sticky non-image path with a non-empty
quota-bearing set S, `get_token` picks exactly the amended-policy
choice: the top entry of the stable descending sort, except that when S
has at least three entries and more than one of the first three lies in
the 0.9 tie band, it round-robins over the band; in particular the
returned entry\'s score is maximal over S. -/
theorem c2_theorem (st : TMState) (now : ℚ) (qg : String) (fr : Bool)
    (hqg : qg ≠ "image_gen")
    (hsticky : stickyHit st now qg fr = none)
    (hS : tokensWithQuota st.tokens ≠ []) :
    (selectToken st now qg fr).map Prod.fst
      = some (amendedPickC2 (sortQuotaDesc (tokensWithQuota st.tokens)) st.currentIndex)
  ∧ ∀ t ∈ tokensWithQuota st.tokens,
      quotaOf t ≤ quotaOf ((sortQuotaDesc (tokensWithQuota st.tokens)).headD dummyToken) := by
  constructor
  · have hne : st.tokens.isEmpty = false := by
      cases hts : st.tokens with
      | nil => rw [hts] at hS; simp [tokensWithQuota] at hS
      | cons _ _ => rfl
    unfold selectToken
    simp only [hne, Bool.false_eq_true, if_false]
    rw [hsticky]
    dsimp only
    rw [if_neg hqg, if_pos hS]
    by_cases h3 : 3 ≤ (sortQuotaDesc (tokensWithQuota st.tokens)).length
    · simp only [amendedPickC2, roundRobin, Option.map_some, h3, if_pos h3, true_and]
      split_ifs <;> rfl
    · simp [amendedPickC2, roundRobin, h3]
  · intro t ht
    exact sortQuotaDesc_head_max _ t ht


/-- C2 counterexample: with S holding exactly two entries of scores 0.5
and 0.48 (both inside the 0.9 tie band) and shared counter 0, two
successive non-sticky selections both return the top entry and never
advance the shared counter, while the claimed round-robin over the band
returns the top entry and then the second entry; so the tie-band rule
does not apply at |S| = 2. -/
theorem c2_counterexample :
    (selectToken stC2 0 "gemini" true).map Prod.fst = some tokQuotaA
  ∧ ((selectToken stC2 0 "gemini" true).bind
      (fun p => selectToken p.2 1 "gemini" true)).map Prod.fst = some tokQuotaA
  ∧ (selectToken stC2 0 "gemini" true).map (fun p => p.2.currentIndex) = some 0
  ∧ claimPickC2 (sortQuotaDesc (tokensWithQuota stC2.tokens)) 0 = tokQuotaA
  ∧ claimPickC2 (sortQuotaDesc (tokensWithQuota stC2.tokens)) 1 = tokQuotaB
  ∧ tokQuotaA ≠ tokQuotaB := by
  decide

/-- Witness for C2: the amended pick evaluated on the concrete
two-entry pool, plus score maximality of the top entry. -/
theorem c2_witness :
    (selectToken stC2 0 "gemini" true).map Prod.fst
      = some (amendedPickC2 (sortQuotaDesc (tokensWithQuota stC2.tokens)) stC2.currentIndex)
  ∧ quotaOf tokQuotaB ≤ quotaOf ((sortQuotaDesc (tokensWithQuota stC2.tokens)).headD dummyToken) :=
  ⟨(c2_theorem stC2 0 "gemini" true (by decide) (by decide) (by decide)).1,
   (c2_theorem stC2 0 "gemini" true (by decide) (by decide) (by decide)).2 tokQuotaB (by decide)⟩


theorem getD_mem {α : Type} (l : List α) (i : Nat) (d : α) (h : i < l.length) :
    l.getD i d ∈ l := by
  induction l generalizing i with
  | nil => simp at h
  | cons a as ih =>
    cases i with
    | zero => simp
    | succ n =>
      simp only [List.getD_cons_succ]
      exact List.mem_cons_of_mem a (ih n (by simpa using h))

theorem headD_mem {α : Type} (l : List α) (d : α) (h : l ≠ []) : l.headD d ∈ l := by
  cases l with
  | nil => exact absurd rfl h
  | cons a as => simp

theorem sortQuotaDesc_ne_nil (l : List ProxyToken) (h : l ≠ []) : sortQuotaDesc l ≠ [] := by
  intro hc
  apply h
  have hlen := (List.perm_insertionSort quotaGE l).length_eq
  rw [sortQuotaDesc] at hc
  rw [hc] at hlen
  exact List.length_eq_zero.1 hlen.symm

theorem mem_tokensWithQuota {t : ProxyToken} {l : List ProxyToken}
    (h : t ∈ tokensWithQuota l) : t ∈ l :=
  (List.mem_filter.1 h).1

/-- The entry produced by a sticky hit is in the pool. -/
theorem stickyHit_mem {st : TMState} {now : ℚ} {qg : String} {fr : Bool} {t : ProxyToken}
    (h : stickyHit st now qg fr = some t) : t ∈ st.tokens := by
  unfold stickyHit at h
  split at h
  · cases hl : st.lastUsed with
    | none => rw [hl] at h; simp at h
    | some p =>
      obtain ⟨lastId, lastTime⟩ := p
      rw [hl] at h
      dsimp only at h
      split at h
      · exact List.mem_of_find?_eq_some h
      · simp at h
  · simp at h

/-- A sticky hit is returned as-is with the state untouched (step 1 of
`get_token`). -/
theorem selectToken_sticky (st : TMState) (now : ℚ) (qg : String) (fr : Bool)
    (t : ProxyToken) (h : stickyHit st now qg fr = some t) :
    selectToken st now qg fr = some (t, st) := by
  have hmem := stickyHit_mem h
  have hne : st.tokens.isEmpty = false := by
    cases hts : st.tokens with
    | nil => rw [hts] at hmem; simp at hmem
    | cons _ _ => rfl
  unfold selectToken
  rw [hne]
  simp only [Bool.false_eq_true, if_false]
  rw [h]

/-- A fresh (non-sticky) selection on the non-image path records the
sticky pair, leaves the pool unchanged, and picks a pool entry. -/
theorem selectToken_fresh (st : TMState) (now : ℚ) (qg : String)
    (hqg : qg ≠ "image_gen") (hsticky : stickyHit st now qg false = none)
    (sel : ProxyToken) (st1 : TMState)
    (h : selectToken st now qg false = some (sel, st1)) :
    st1.lastUsed = some (sel.accountId, now) ∧ st1.tokens = st.tokens ∧ sel ∈ st.tokens := by
  unfold selectToken at h
  by_cases hne : st.tokens.isEmpty
  · rw [if_pos hne] at h
    simp at h
  · rw [if_neg hne] at h
    rw [hsticky] at h
    dsimp only at h
    rw [if_neg hqg] at h
    have htne : st.tokens ≠ [] := by
      cases hts : st.tokens with
      | nil => rw [hts] at hne; simp at hne
      | cons _ _ => simp
    by_cases hS : tokensWithQuota st.tokens ≠ []
    · rw [if_pos hS] at h
      simp only [Option.some.injEq, Prod.mk.injEq] at h
      obtain ⟨h1, h2⟩ := h
      subst h1
      subst h2
      refine ⟨rfl, by split_ifs <;> rfl, ?_⟩
      have hsne := sortQuotaDesc_ne_nil _ hS
      split_ifs with hc1 hc2
      · -- round robin over the tie band
        apply mem_tokensWithQuota
        apply (List.mem_insertionSort quotaGE).1
        apply List.mem_of_mem_take
        have hband := getD_mem _ (st.currentIndex %
            ((sortQuotaDesc (tokensWithQuota st.tokens)).take 3 |>.filter
              (fun t => decide (quotaOf t ≥
                ratMul (quotaOf ((sortQuotaDesc (tokensWithQuota st.tokens)).headD dummyToken))
                  (mkRat 9 10)))).length)
          dummyToken (Nat.mod_lt _ (by omega))
        exact (List.mem_filter.1 hband).1
      · exact mem_tokensWithQuota ((List.mem_insertionSort quotaGE).1 (headD_mem _ _ hsne))
      · exact mem_tokensWithQuota ((List.mem_insertionSort quotaGE).1 (headD_mem _ _ hsne))
    · rw [if_neg hS] at h
      simp only [Option.some.injEq, Prod.mk.injEq] at h
      obtain ⟨h1, h2⟩ := h
      subst h1
      subst h2
      refine ⟨rfl, rfl, ?_⟩
      exact getD_mem _ _ _ (Nat.mod_lt _ (List.length_pos.2 htne))


/-- Looking up the mutated account id after `updateToken` finds the
mutated entry. -/
theorem findById_replaced (l : List ProxyToken) (a : String) (t : ProxyToken)
    (hta : t.accountId = a) (hex : ∃ x ∈ l, x.accountId = a) :
    findById (l.map (fun u => if u.accountId == t.accountId then t else u)) a = some t := by
  induction l with
  | nil =>
    obtain ⟨x, hx, _⟩ := hex
    simp at hx
  | cons b bs ih =>
    by_cases hb : b.accountId = t.accountId
    · have himg : (if (b.accountId == t.accountId) = true then t else b) = t := by
        simp [hb]
      unfold findById
      simp only [List.map_cons, himg]
      exact List.find?_cons_of_pos _ (by simp [hta])
    · have himg : (if (b.accountId == t.accountId) = true then t else b) = b := by
        simp [hb]
      have hba : b.accountId ≠ a := by
        rw [← hta]
        exact hb
      unfold findById
      simp only [List.map_cons, himg]
      rw [List.find?_cons_of_neg _ (by simp [hba])]
      obtain ⟨x, hx, hxa⟩ := hex
      rcases List.mem_cons.1 hx with hxb | hxbs
      · subst hxb
        exact absurd hxa hba
      · exact ih ⟨x, hxbs, hxa⟩

/-- Decomposition of a successful `get_token`: it goes through a
selection, preserves the selected identity through refresh and
metadata, and stores the mutated entry back under its account id. -/
theorem getToken_email (ora : GTOracles) (st : TMState) (now : ℚ) (qg : String) (fr : Bool)
    (r : GTResult) (h : getToken ora st now qg fr = some r) :
    ∃ sel st1, selectToken st now qg fr = some (sel, st1)
      ∧ r.email = sel.email
      ∧ r.state.lastUsed = st1.lastUsed
      ∧ r.state.tokens = st1.tokens.map
          (fun u => if u.accountId == r.token.accountId then r.token else u)
      ∧ r.token.accountId = sel.accountId ∧ r.token.email = sel.email := by
  unfold getToken at h
  cases hsel : selectToken st now qg fr with
  | none => rw [hsel] at h; simp at h
  | some p =>
    obtain ⟨sel, st1⟩ := p
    rw [hsel] at h
    dsimp only at h
    cases href : refreshTokenStep ora (Rat.floor now) sel with
    | none => rw [href] at h; simp at h
    | some sel1 =>
      rw [href] at h
      simp only [Option.some.injEq] at h
      subst h
      obtain ⟨hacc1, hem1, _, _, _⟩ := refreshTokenStep_fields ora (Rat.floor now) sel sel1 href
      refine ⟨sel, st1, rfl, ?_, rfl, rfl, ?_, ?_⟩
      · cases hneed : (! truthyStrOpt sel1.projectId) with
        | true =>
          show (fetchMetadataStep ora sel1).email = sel.email
          rw [(fetchMetadataStep_fields ora sel1).2.1]
          exact hem1
        | false =>
          show sel1.email = sel.email
          exact hem1
      · cases hneed : (! truthyStrOpt sel1.projectId) with
        | true =>
          show (fetchMetadataStep ora sel1).accountId = sel.accountId
          rw [(fetchMetadataStep_fields ora sel1).1]
          exact hacc1
        | false =>
          show sel1.accountId = sel.accountId
          exact hacc1
      · cases hneed : (! truthyStrOpt sel1.projectId) with
        | true =>
          show (fetchMetadataStep ora sel1).email = sel.email
          rw [(fetchMetadataStep_fields ora sel1).2.1]
          exact hem1
        | false =>
          show sel1.email = sel.email
          exact hem1

/-- C1 amended: two `get_token` calls with `force_rotate = false` and a
non-image quota group, less than 60 s apart on an unchanged pool,
return the same identity provided the first call performed a fresh
(non-sticky) selection — a sticky reuse does not renew the window, so
the 60 s are measured from the recorded selection time. -/
theorem c1_theorem (ora1 ora2 : GTOracles) (st : TMState) (qg1 qg2 : String)
    (now1 now2 : ℚ) (r1 r2 : GTResult)
    (hqg1 : qg1 ≠ "image_gen") (hqg2 : qg2 ≠ "image_gen")
    (hfresh : stickyHit st now1 qg1 false = none)
    (h1 : getToken ora1 st now1 qg1 false = some r1)
    (hwin : ratSub now2 now1 < 60)
    (h2 : getToken ora2 r1.state now2 qg2 false = some r2) :
    r2.email = r1.email := by
  obtain ⟨sel, st1, hsel, hemail1, hlast, htokens, hacc, htokemail⟩ :=
    getToken_email ora1 st now1 qg1 false r1 h1
  obtain ⟨hlast1, htok1, hmem1⟩ := selectToken_fresh st now1 qg1 hqg1 hfresh sel st1 hsel
  have hsticky2 : stickyHit r1.state now2 qg2 false = some r1.token := by
    unfold stickyHit
    rw [if_pos ⟨rfl, hqg2⟩]
    rw [hlast, hlast1]
    dsimp only
    rw [if_pos hwin]
    rw [htokens, htok1]
    exact findById_replaced st.tokens sel.accountId r1.token hacc ⟨sel, hmem1, rfl⟩
  have hsel2 := selectToken_sticky r1.state now2 qg2 false r1.token hsticky2
  obtain ⟨selB, st1B, hselB, hemail2, _, _, _, _⟩ :=
    getToken_email ora2 r1.state now2 qg2 false r2 h2
  rw [hsel2] at hselB
  simp only [Option.some.injEq, Prod.mk.injEq] at hselB
  rw [hemail2, ← hselB.1, htokemail, ← hemail1]

/-- C1 counterexample: the pool records entry `a` selected at time 0;
a call at time 59 sticky-reuses `a` without renewing the window, and a
call at time 118 — only 59 s later, on the unchanged pool — selects
entry `b` by score.  Two acquisitions less than 60 s apart thus return
different identities when the first was itself a sticky reuse. -/
theorem c1_counterexample :
    (getToken oraBenign stC1 59 "gemini" false).map (fun r => r.email) = some "a@x"
  ∧ ((getToken oraBenign stC1 59 "gemini" false).bind
      (fun r => getToken oraBenign r.state 118 "gemini" false)).map (fun r => r.email)
      = some "b@x"
  ∧ (getToken oraBenign stC1 59 "gemini" false).map (fun r => r.state.tokens)
      = some stC1.tokens
  ∧ ratSub 118 59 < 60 := by
  decide

/-- Witness for C1: a fresh first selection at time 0 and a second call
at time 59 return the same identity. -/
theorem c1_witness : rC1b.email = rC1a.email :=
  c1_theorem oraBenign oraBenign stC1w "gemini" "gemini" 0 59 rC1a rC1b
    (by decide) (by decide) (by decide) (by decide) (by decide) (by decide)

end Antigravity
